import Mathlib

/-!
Verification of the adaptive query-synthesis and repair engine of the
medgraph-navigator repository (a Next.js application that turns free-text
questions about a medical graph database into AQL queries, executes them,
validates the results and retries on failure).

The TypeScript sources are embedded shallowly:

* JavaScript string primitives (trim, toLowerCase, includes, startsWith,
  split, substring, replace) are modelled on `List Char`, with JS semantics.
* JSON values returned by the data store are modelled by the inductive
  type `JsVal`; property access and JS truthiness are explicit.
* The two external services (the text-generation service and the data
  store) are modelled as call-indexed oracles; a `none` answer stands for
  a thrown exception or a timeout, which the source handles identically.
* The refinement loop of `executeQueryWithLLM` (app/utils/queryExecutor.ts)
  is modelled as a fuel-indexed state machine; the fuel equals the
  remaining attempt budget, so the bounded-loop property is structural.

Every definition is translated from the repository source; file and line
references are given in the doc comments.
-/

/-! ## JavaScript string primitives -/

/-- Whitespace characters recognised by the JS `trim` family (ASCII part). -/
def isJsWs (c : Char) : Bool :=
  c == ' ' || c == '\t' || c == '\n' || c == '\r' || c == '\x0b' || c == '\x0c'

/-- JS `String.prototype.trim` on a character list: drop whitespace from
both ends. -/
def trimChars (l : List Char) : List Char :=
  ((l.dropWhile isJsWs).reverse.dropWhile isJsWs).reverse

/-- JS `trim` on strings. -/
def jsTrim (s : String) : String := ⟨trimChars s.data⟩

/-- JS `toLowerCase` (the sources only ever lower-case ASCII text). -/
def jsLower (s : String) : String := ⟨s.data.map Char.toLower⟩

/-- Substring occurrence test on character lists, the model of JS
`String.prototype.includes`. -/
def containsSub (pat : List Char) : List Char → Bool
  | [] => pat.isEmpty
  | c :: rest => pat.isPrefixOf (c :: rest) || containsSub pat rest

/-- JS `s.includes(pat)`. -/
def jsIncludes (s pat : String) : Bool := containsSub pat.data s.data

/-- JS `s.startsWith(pat)`. -/
def jsStartsWith (s pat : String) : Bool := pat.data.isPrefixOf s.data

/-- JS `s.substring(n)`. -/
def jsDropChars (s : String) (n : Nat) : String := ⟨s.data.drop n⟩

/-- The three backtick characters of a Markdown code fence. -/
def fenceTicks : List Char := ['\x60', '\x60', '\x60']

/-- JS `text.split("\x60\x60\x60")` specialised to the fence separator:
split at every (non-overlapping, leftmost) occurrence of three backticks,
keeping empty parts, exactly like JS `String.prototype.split`. -/
def splitTicksAux : List Char → List Char → List (List Char)
  | '\x60' :: '\x60' :: '\x60' :: rest, acc => acc.reverse :: splitTicksAux rest []
  | c :: rest, acc => splitTicksAux rest (c :: acc)
  | [], acc => [acc.reverse]

/-- JS `text.split("\x60\x60\x60")`. -/
def splitTicks (l : List Char) : List (List Char) := splitTicksAux l []

/-- JS `text.replace(/\x60\x60\x60/g, "")`: remove every (non-overlapping,
leftmost-first) occurrence of three backticks. -/
def removeTicksL : List Char → List Char
  | '\x60' :: '\x60' :: '\x60' :: rest => removeTicksL rest
  | c :: rest => c :: removeTicksL rest
  | [] => []

/-- Test of the regex `/^(sql|aql)$/i` used on the first line of a fenced
block in `cleanAqlQuery`. -/
def langLineMatch (l : List Char) : Bool :=
  l.map Char.toLower == "sql".data || l.map Char.toLower == "aql".data

/-- One step of the language-prefix stripping loop of `cleanAqlQuery`
(app/utils/resultAnalyzer.ts, queryUtils section, lines 516-521, and the
identical copy in app/api/query/route.ts lines 466-472): if the query,
lower-cased, starts with the (lower-cased) tag, drop the tag and trim. -/
def stripLangTag (tag : List Char) (q : List Char) : List Char :=
  if tag.isPrefixOf (q.map Char.toLower) then trimChars (q.drop tag.length) else q

/-- Model of `cleanAqlQuery` (app/utils/resultAnalyzer.ts, queryUtils
section, lines 495-527; an identical copy lives in
app/api/query/route.ts lines 446-478).  It removes a fenced code block
(taking `blocks[1]` and, when its first line is `sql`/`aql`, dropping that
line), strips the language prefixes `aql`, `sql`, `AQL:`, `SQL:` in that
order (each checked once), removes remaining fences and trims. -/
def cleanAqlQuery (text : String) : String :=
  let query := text.data
  let query :=
    if containsSub fenceTicks query then
      match (splitTicks query).drop 1 with
      | [] => query
      | b :: _ =>
        let blockContent := trimChars b
        let lines := List.splitOn '\n' blockContent
        if langLineMatch (lines.headD []) then
          trimChars (List.intercalate ['\n'] (lines.drop 1))
        else blockContent
    else query
  let query := stripLangTag "aql".data query
  let query := stripLangTag "sql".data query
  let query := stripLangTag "aql:".data query
  let query := stripLangTag "sql:".data query
  ⟨trimChars (removeTicksL query)⟩

/-! ## JSON values returned by the data store -/

/-- JSON-like values appearing in query results.  Numbers are modelled as
integers (all values handled by the engine are counts or identifiers);
property access on a number or a string yields `none` (JS `undefined`). -/
inductive JsVal where
  | num (n : Int)
  | str (s : String)
  | obj (fields : List (String × JsVal))

/-- JS truthiness of a value (objects are always truthy). -/
def truthy : JsVal → Bool
  | .num n => n != 0
  | .str s => s != ""
  | .obj _ => true

/-- Truthiness of a possibly-undefined value. -/
def optTruthy : Option JsVal → Bool
  | some v => truthy v
  | none => false

/-- Truthiness of an optional string field (a map entry that may be
absent, as in `intent.filters.year`). -/
def optTruthyS : Option String → Bool
  | some s => s != ""
  | none => false

/-- JS `typeof v === "number"`. -/
def JsVal.isNum : JsVal → Bool
  | .num _ => true
  | _ => false

/-- JS `typeof v === "object"` (for the values representable here). -/
def JsVal.isObj : JsVal → Bool
  | .obj _ => true
  | _ => false

/-- JS property access `v[k]`; `none` is `undefined`. -/
def getProp (v : JsVal) (k : String) : Option JsVal :=
  match v with
  | .obj fields => (fields.find? (fun p => p.1 == k)).map (·.2)
  | _ => none

/-- JS `v.hasOwnProperty(k)` (false on primitives). -/
def hasOwn (v : JsVal) (k : String) : Bool :=
  match v with
  | .obj fields => fields.any (fun p => p.1 == k)
  | _ => false

/-- JS `Object.keys(v)` (insertion order). -/
def objKeys : JsVal → List String
  | .obj fields => fields.map (·.1)
  | _ => []

/-- Value of the JS expression `item.k1 || item.k2 || ... || item.kn`
restricted to its observable part: the first truthy property value, or
`none` when every property in the chain is absent or falsy.  (When the JS
chain ends in a falsy value that value never compares `===` equal to a
non-empty string and never passes an `&&` guard, so this model is
observationally equivalent at every call site of the sources.) -/
def jsOrChain (v : JsVal) : List String → Option JsVal
  | [] => none
  | k :: rest =>
    match getProp v k with
    | some val => if truthy val then some val else jsOrChain v rest
    | none => jsOrChain v rest

/-- JS strict equality `x === s` between a possibly-undefined value and a
string literal. -/
def strictEqStr (o : Option JsVal) (s : String) : Bool :=
  match o with
  | some (.str t) => t == s
  | _ => false

/-! ## Intent classifier (app/utils/queryIntentAnalyzer.ts) -/

/-- Filters extracted by the intent classifier; a missing key of the JS
`filters` record is `none`. -/
structure QueryFilters where
  year : Option String
  gender : Option String
  race : Option String
deriving DecidableEq

/-- The `QueryIntent` interface of app/utils/queryIntentAnalyzer.ts. -/
structure QueryIntent where
  queryType : String
  keywords : List String
  filters : QueryFilters
  complexity : String
  exactQuery : Bool
  generalQuery : Bool
deriving DecidableEq

/-- Word characters of the JS regex `\b` boundary (`[A-Za-z0-9_]`). -/
def isWordChar (c : Char) : Bool := c.isAlpha || c.isDigit || c == '_'

/-- Match of the year regex `(19|20)\d{2}\b` at the head of the list. -/
def yearMatchAt : List Char → Option String
  | d1 :: d2 :: d3 :: d4 :: rest =>
    if ((d1 == '1' && d2 == '9') || (d1 == '2' && d2 == '0'))
        && d3.isDigit && d4.isDigit
        && (match rest with | [] => true | c :: _ => !isWordChar c) then
      some ⟨[d1, d2, d3, d4]⟩
    else none
  | _ => none

/-- Scan for the leftmost match of `\b(19|20)\d{2}\b`; the Boolean records
whether the previous character was a word character (initially false). -/
def findYearAux : Bool → List Char → Option String
  | _, [] => none
  | prevWord, c :: rest =>
    if !prevWord then
      match yearMatchAt (c :: rest) with
      | some y => some y
      | none => findYearAux (isWordChar c) rest
    else findYearAux (isWordChar c) rest

/-- First match of `userQuery.match(/\b(19|20)\d{2}\b/g)`, or `none`. -/
def findYearMatch (cs : List Char) : Option String := findYearAux false cs

/-- Fixed clinical vocabulary scanned by the classifier
(app/utils/queryIntentAnalyzer.ts lines 250-261). -/
def medicalTerms : List String :=
  ["diabetes", "hypertension", "otitis", "asthma", "heart disease",
   "cardiac", "cancer", "arthritis", "condition", "disease"]

/-- Race vocabulary of the classifier (line 306). -/
def raceTerms : List String := ["white", "black", "asian", "hispanic", "native", "other"]

/-- Model of `analyzeQueryIntent` (app/utils/queryIntentAnalyzer.ts lines
206-331): pure, case-insensitive rule evaluation producing a
`QueryIntent`. -/
def analyzeQueryIntent (userQuery : String) : QueryIntent :=
  let lowercaseQuery := jsLower userQuery
  let generalQuery :=
    (jsStartsWith lowercaseQuery "list" || jsStartsWith lowercaseQuery "show"
      || jsStartsWith lowercaseQuery "get" || jsIncludes lowercaseQuery "patients"
      || jsIncludes lowercaseQuery "born in")
    && !(jsIncludes lowercaseQuery "diabetes")
    && !(jsIncludes lowercaseQuery "hypertension")
    && !(jsIncludes lowercaseQuery "otitis")
    && !(jsIncludes lowercaseQuery "asthma")
    && !(jsIncludes lowercaseQuery "heart disease")
    && !(jsIncludes lowercaseQuery "cancer")
  let exactQuery :=
    jsIncludes lowercaseQuery "list the patient"
    || jsIncludes lowercaseQuery "show me patient"
    || jsIncludes lowercaseQuery "patients born in"
    || jsIncludes lowercaseQuery "who were born in"
  let queryType :=
    if jsStartsWith lowercaseQuery "how many" || jsIncludes lowercaseQuery "count"
        || jsIncludes lowercaseQuery "most common"
        || jsIncludes lowercaseQuery "distribution" then "count"
    else if jsIncludes lowercaseQuery "analyze" || jsIncludes lowercaseQuery "trend"
        || jsIncludes lowercaseQuery "pattern"
        || jsIncludes lowercaseQuery "compare" then "analysis"
    else "data"
  let keywords0 := medicalTerms.filter (fun term => jsIncludes lowercaseQuery term)
  let keywords :=
    if jsIncludes lowercaseQuery "with their conditions" && keywords0.length == 0 then
      keywords0 ++ [""]
    else keywords0
  let yearFilter := findYearMatch userQuery.data
  let genderFilter :=
    if jsIncludes lowercaseQuery " male" || jsIncludes lowercaseQuery "males"
        || jsIncludes lowercaseQuery " men" || jsIncludes lowercaseQuery " man" then
      some "M"
    else if jsIncludes lowercaseQuery "female" || jsIncludes lowercaseQuery "females"
        || jsIncludes lowercaseQuery "women" || jsIncludes lowercaseQuery "woman" then
      some "F"
    else none
  let raceFilter := raceTerms.find? (fun race => jsIncludes lowercaseQuery race)
  let filtersCount :=
    (if yearFilter.isSome then 1 else 0) + (if genderFilter.isSome then 1 else 0)
      + (if raceFilter.isSome then 1 else 0)
  let complexity :=
    if keywords.length > 0 && filtersCount > 0 then "complex"
    else if keywords.length > 0 || filtersCount > 0 then "moderate"
    else "simple"
  { queryType := queryType, keywords := keywords,
    filters := ⟨yearFilter, genderFilter, raceFilter⟩,
    complexity := complexity, exactQuery := exactQuery, generalQuery := generalQuery }

/-! ## Result validator (app/utils/resultAnalyzer.ts, queryUtils section) -/

/-- Property chains used by the validator. -/
def genderKeys : List String := ["gender", "Gender", "GENDER"]

/-- Birthdate property chain. -/
def birthdateKeys : List String := ["birthdate", "Birthdate", "BIRTHDATE"]

/-- Condition-description property chain. -/
def conditionKeys : List String := ["condition", "CONDITION", "Description", "DESCRIPTION"]

/-- Identifier property chain. -/
def idKeys : List String := ["id", "ID", "patient_id"]

/-- Model of `isValidResult` (app/utils/resultAnalyzer.ts, queryUtils
section, lines 532-642).  The count-specific checks return early
(modelled by the `Option Bool`); when none of them fires control falls
through to the data-query checks, exactly as in the source. -/
def isValidResult (results : List JsVal) (queryType : String)
    (originalQuery : String) (intent : QueryIntent) : Bool :=
  match results.head? with
  | none => false
  | some r0 =>
    let countEarly : Option Bool :=
      if queryType == "count" then
        if jsIncludes (jsLower originalQuery) "how many" && decide (10 < results.length)
            && !r0.isNum && !hasOwn r0 "count" then
          some false
        else if results.length == 1 && r0.isNum then some true
        else if results.length == 1 && r0.isObj then
          some ((objKeys r0).any (fun key =>
            jsIncludes key "count" || key == "male" || key == "female" || key == "race"))
        else if decide (1 < results.length) && truthy r0
            && (optTruthy (getProp r0 "count") || optTruthy (getProp r0 "value")) then
          some true
        else if jsStartsWith (jsLower originalQuery) "how many" then some false
        else none
      else none
    match countEarly with
    | some b => b
    | none =>
      if queryType == "data" && optTruthyS intent.filters.gender then
        results.any (fun item =>
          strictEqStr (jsOrChain item genderKeys) (intent.filters.gender.getD ""))
      else if queryType == "data" && optTruthyS intent.filters.year then
        results.any (fun item =>
          match jsOrChain item birthdateKeys with
          | some (.str birthdate) => jsIncludes birthdate (intent.filters.year.getD "")
          | _ => false)
      else if decide (0 < intent.keywords.length) && !intent.generalQuery then
        results.any (fun item =>
          match jsOrChain item conditionKeys with
          | some (.str condition) =>
            intent.keywords.any (fun keyword =>
              keyword != "" && jsIncludes (jsLower condition) (jsLower keyword))
          | _ => false)
      else if intent.generalQuery && decide (0 < results.length) then
        results.any (fun item => (jsOrChain item idKeys).isSome)
      else decide (0 < results.length)

/-! ## Fallback query (app/utils/resultAnalyzer.ts, queryUtils section) -/

/-- Model of `generateYearPatientFallbackQuery` (queryUtils section lines
779-793): the direct filtered scan for patients born in a given year. -/
def generateYearPatientFallbackQuery (year : String) : String :=
  "\n    FOR node IN MedGraph_node\n      FILTER node.type == \x27patient\x27\n      FILTER CONTAINS(node.BIRTHDATE, \x27"
    ++ year
    ++ "\x27)\n      SORT node.BIRTHDATE DESC\n      LIMIT 15\n      RETURN \x7b \n        id: node.ID, \n        birthdate: node.BIRTHDATE, \n        gender: node.GENDER, \n        race: node.RACE \n      \x7d\n  "

/-! ## Conclusion percentages (binary gender distribution)

The same formula appears in `analyzeQueryResults`
(app/utils/resultAnalyzer.ts lines 64-66), `processQueryResults` (lines
331-333), `generateConclusion` (lines 702-704) and
`createCountConclusion` (app/api/query/route.ts, utils variant, lines
71-73): `((results[0].male / total) * 100).toFixed(1)` with
`total = male + female`.  `toFixed(1)` is modelled as exact rounding of a
rational to one decimal place, half away from zero for the non-negative
inputs at hand. -/

/-- Rounding to one decimal place (model of `Number.prototype.toFixed(1)`
for non-negative values, with exact rational arithmetic). -/
def toFixed1 (q : ℚ) : ℚ := ((⌊q * 10 + 1 / 2⌋ : ℤ) : ℚ) / 10

/-- The reported male percentage of a binary gender distribution. -/
def malePercent (male female : ℚ) : ℚ := toFixed1 (male / (male + female) * 100)

/-- The reported female percentage of a binary gender distribution. -/
def femalePercent (male female : ℚ) : ℚ := toFixed1 (female / (male + female) * 100)

/-! ## Refinement loop (app/utils/queryExecutor.ts) -/

/-- Attempt budget of the refinement loop (`maxAttempts`, line 26). -/
def maxAttempts : Nat := 8

/-- Feedback message used when the previous attempt returned no rows
(lines 65 and 144 of app/utils/queryExecutor.ts). -/
def noResultsMsg : String :=
  "No results found. There might not be any patients matching these criteria."

/-- Feedback message used when the previous attempt returned rows that
were not accepted (line 66). -/
def invalidResultsMsg : String := "Previous query didn\x27t return valid results"

/-- The staged-pattern directive composed in the timeout handler of
`executeQueryWithLLM` (lines 170-171).  The handler stores it in the
local variable `timeoutMessage` and never reads it again. -/
def timeoutMessage : String :=
  "Previous query timed out or resulted in an error. Please use the optimized pattern from example #11 with staged processing for better performance."

/-- The `promptErrorInfo` expression of `executeQueryWithLLM` (lines
62-67): the feedback handed to the prompt builder depends only on the
attempt number and on whether the persisted `result` variable is empty. -/
def promptErrorInfo (attempts : Nat) (result : List JsVal) : String :=
  if 1 < attempts then (if result.isEmpty then noResultsMsg else invalidResultsMsg) else ""

/-- Terminal value of one run of `executeQueryWithLLM`: the fields of the
object returned at lines 182-187, plus a ghost trace (`errorInfoTrace`)
recording the feedback string passed to each prompt-builder call.  The
trace does not influence control flow. -/
structure ExecResult where
  query : String
  result : List JsVal
  attempts : Nat
  attemptHistory : List String
  errorInfoTrace : List String

/-- Mutable state of the `while` loop of `executeQueryWithLLM`.  The call
indices make the two external services call-counted oracles. -/
structure LoopState where
  attempts : Nat
  result : List JsVal
  attemptHistory : List String
  llmIdx : Nat
  dbIdx : Nat
  errorInfoTrace : List String

/-- Environment of one run: the request, the classified intent, and the
two external services.  `llm` receives the built prompt and answers with
generated text or `none` (a thrown error); `db` answers a call with rows
or `none` (a thrown error or a timeout — the source handles both in the
same catch block). -/
structure ExecEnv where
  userQuery : String
  intent : QueryIntent
  llm : Nat → String → Option String
  db : Nat → Option (List JsVal)

/-- Outcome of one loop iteration: loop exit (`break` / `return`) with a
final value, or continuation with an updated state. -/
inductive StepRes where
  | done (r : ExecResult)
  | next (st : LoopState)
/-- Chunk 1 of the static schema string returned by `getGraphSchema` in
app/utils/schemaProvider.ts (split into chunks only so that kernel evaluation
of substring checks stays within stack limits). -/
def schemaChunk1 : String :=
  "\n          MedGraph Schema (Based on Synthea Medical Dataset):\n  \n      Node Types (lowercase) and Properties (ALL CAPS):\n      - patient: \x7bID, BIRTHDATE, GENDER (\x27M\x27/\x27F\x27), RACE, ETHNICITY, MARITAL, etc.\x7d\n      - encounter: \x7bID, DATE, CODE, DESCRIPTION, REASONCODE, REASONDESCRIPTION\x7d\n      - condition: \x7bCODE, DESCRIPTION, START, STOP, PATIENT, ENCOUNTER\x7d\n      - medication: \x7bCODE, DESCRIPTION, START, STOP, PATIENT, ENCOUNTER, REASONCODE, REASONDESCRIPTION\x7d\n      - procedure: \x7bCODE, DESCRIPTION, DATE, PATIENT, ENCOUNTER, REASONCODE, REASONDESCRIPTION\x7d\n      - observation: \x7bCODE, DESCRIPTION, VALUE, UNITS, DATE, PATIENT, ENCOUNTER\x7d\n      - allergy: \x7bCODE, DESCRIPTION, START, STOP, PATIENT, ENCOUNTER\x7d\n      - careplan: \x7bID, CODE, DESCRIPTION, START, STOP, PATIENT, ENCOUNTER, REASONCODE, REASONDESCRIPTION\x7d\n      - immunization: \x7bCODE, DESCRIPTION, DATE, PATIENT, ENCOUNTER\x7d\n  \n      EXAMPLE CORRECT AQL QUERIES:\n  \n      1. Count patients by race:\n         RETURN LENGTH(\n           FOR node IN MedGraph_node\n           FILTER node.type == \x27patient\x27 AND node.RACE == \x27white\x27\n           RETURN node\n         )\n  \n      2. Count patients by gender:\n         RETURN \x7b\n           male: LENGTH(FOR node IN MedGraph_node FILTER node.type == \x27patient\x27 AND node.GENDER == \x27M\x27 RETURN 1),\n           female: LENGTH(FOR node IN MedGraph_node FILTER node.type == \x27patient\x27 AND node.GENDER == \x27F\x27 RETURN 1)\n         \x7d\n  \n      3. Get patients with data:\n         FOR node IN MedGraph_node\n           FILTER node.type == \x27patient\x27\n           SORT node.BIRTHDATE DESC\n           LIMIT 10\n"

/-- Chunk 2 of the static schema string returned by `getGraphSchema` in
app/utils/schemaProvider.ts (split into chunks only so that kernel evaluation
of substring checks stays within stack limits). -/
def schemaChunk2 : String :=
  "           RETURN \x7b ID: node.ID, BIRTHDATE: node.BIRTHDATE, GENDER: node.GENDER, RACE: node.RACE \x7d\n  \n      4. Group and count:\n         FOR node IN MedGraph_node\n           FILTER node.type == \x27patient\x27\n           COLLECT race = node.RACE WITH COUNT INTO count\n           SORT count DESC\n           RETURN \x7b race: race, count: count \x7d\n  \n      5. Average age calculation:\n         RETURN AVERAGE(\n           FOR node IN MedGraph_node\n           FILTER node.type == \x27patient\x27\n           RETURN DATE_DIFF(DATE_NOW(), DATE_TIMESTAMP(node.BIRTHDATE), \"year\")\n         )\n  \n      6. List patients with specific demographics:\n         FOR node IN MedGraph_node\n           FILTER node.type == \x27patient\x27\n           FILTER node.GENDER == \x27F\x27 OR node.GENDER == \x27M\x27\n           SORT node.BIRTHDATE DESC\n           LIMIT 15\n           RETURN \x7b \n             id: node.ID, \n             gender: node.GENDER, \n             birthdate: node.BIRTHDATE, \n             race: node.RACE \n           \x7d\n  \n      7. Find patients with specific conditions:\n         FOR node IN MedGraph_node\n           FILTER node.type == \x27condition\x27\n           FILTER LOWER(node.DESCRIPTION) LIKE \x27%otitis media%\x27\n           FOR patient IN MedGraph_node\n             FILTER patient.type == \x27patient\x27 \n             FILTER patient.id == node.PATIENT || patient._id == node.PATIENT\n             LIMIT 15\n             RETURN \x7b\n               condition: node.DESCRIPTION,\n               code: node.CODE,\n               patient_id: patient.id,\n               gender: patient.GENDER,\n               race: patient.RACE,\n"

/-- Chunk 3 of the static schema string returned by `getGraphSchema` in
app/utils/schemaProvider.ts (split into chunks only so that kernel evaluation
of substring checks stays within stack limits). -/
def schemaChunk3 : String :=
  "               birthdate: patient.BIRTHDATE\n             \x7d\n  \n      8. Graph traversal for conditions and patients:\n         FOR condition IN MedGraph_node\n           FILTER condition.type == \x27condition\x27\n           FILTER CONTAINS(LOWER(condition.DESCRIPTION), \"diabetes\")\n           FOR encounter IN INBOUND condition MedGraph_node_to_MedGraph_node\n             FILTER encounter.type == \x27encounter\x27\n             FOR patient IN INBOUND encounter MedGraph_node_to_MedGraph_node\n               FILTER patient.type == \x27patient\x27\n               LIMIT 15\n               RETURN DISTINCT \x7b\n                 patient_id: patient.ID,\n                 gender: patient.GENDER,\n                 birthdate: patient.BIRTHDATE,\n                 condition: condition.DESCRIPTION\n               \x7d\n  \n      9. Using variables for filtering:\n         LET queryIntent = \x7b gender: \"F\" \x7d\n         FOR node IN MedGraph_node\n           FILTER node.type == \x27patient\x27 AND node.GENDER == queryIntent.gender\n           SORT node.BIRTHDATE DESC\n           LIMIT 15\n           RETURN \x7b \n             id: node.ID, \n             gender: node.GENDER, \n             birthdate: node.BIRTHDATE, \n             race: node.RACE \n           \x7d\n  \n      10. Advanced condition to patient relationship query:\n          LET entity = \"diabetes\"\n          // Get all matching conditions first\n          LET matching_conditions = (\n            FOR doc IN MedGraph_node\n              FILTER doc.type == \"condition\"\n              FILTER LOWER(doc.DESCRIPTION) LIKE CONCAT(\"%\", LOWER(entity), \"%\")\n              LIMIT 100\n              RETURN doc\n"

/-- Chunk 4 of the static schema string returned by `getGraphSchema` in
app/utils/schemaProvider.ts (split into chunks only so that kernel evaluation
of substring checks stays within stack limits). -/
def schemaChunk4 : String :=
  "          )\n          \n          // Then process patient lookup in a separate phase\n          FOR condition IN matching_conditions\n            // Find encounter edges that connect to this condition\n            LET encounter_edges = (\n              FOR enc_edge IN MedGraph_node_to_MedGraph_node\n                FILTER enc_edge._to == condition._id\n                FILTER enc_edge.relationship_type == \x27ENCOUNTER_CONDITION\x27\n                LIMIT 2\n                RETURN enc_edge\n            )\n            \n            FILTER LENGTH(encounter_edges) > 0\n            \n            LET encounter = DOCUMENT(encounter_edges[0]._from)\n            \n            // Find patient edges that connect to this encounter\n            LET patient_edges = (\n              FOR pat_edge IN MedGraph_node_to_MedGraph_node\n                FILTER pat_edge._to == encounter._id\n                FILTER pat_edge.relationship_type == \x27PATIENT_ENCOUNTER\x27\n                LIMIT 1\n                RETURN pat_edge\n            )\n            \n            FILTER LENGTH(patient_edges) > 0\n            \n            LET patient = DOCUMENT(patient_edges[0]._from)\n            \n            LIMIT 15\n            RETURN DISTINCT \x7b\n              id: patient.ID,\n              gender: patient.GENDER,\n              race: patient.RACE,\n              condition: condition.DESCRIPTION\n            \x7d\n            \n      11. OPTIMIZED QUERY PATTERN - For complex relationship queries:\n          // AVOID THIS SLOW APPROACH:\n          // FOR condition IN MedGraph_node\n          //   FILTER condition.type == \x27condition\x27\n"

/-- Chunk 5 of the static schema string returned by `getGraphSchema` in
app/utils/schemaProvider.ts (split into chunks only so that kernel evaluation
of substring checks stays within stack limits). -/
def schemaChunk5 : String :=
  "          //   FILTER CONTAINS(LOWER(condition.DESCRIPTION), \"diabetes\")\n          //   FOR encounter IN INBOUND condition MedGraph_node_to_MedGraph_node\n          //     FILTER encounter.type == \x27encounter\x27\n          //     FOR patient IN INBOUND encounter MedGraph_node_to_MedGraph_node\n          //       FILTER patient.type == \x27patient\x27\n          //       FILTER CONTAINS(SUBSTRING(patient.BIRTHDATE, 0, 4), \"1964\")\n          //       LIMIT 15\n          //       RETURN DISTINCT \x7b ... \x7d\n          \n          // USE THIS FASTER APPROACH INSTEAD:\n          LET entity = \"diabetes\"\n          // Step 1: Get all matching conditions first\n          LET matching_conditions = (\n            FOR doc IN MedGraph_node\n              FILTER doc.type == \"condition\"\n              FILTER LOWER(doc.DESCRIPTION) LIKE CONCAT(\"%\", LOWER(entity), \"%\")\n              LIMIT 10000\n              RETURN doc\n          )\n          \n          // Step 2: Process patient lookup in a separate phase\n          FOR condition IN matching_conditions\n            // Find encounter edges that connect to this condition\n            LET encounter_edges = (\n              FOR enc_edge IN MedGraph_node_to_MedGraph_node\n                FILTER enc_edge._to == condition._id\n                FILTER enc_edge.relationship_type == \x27ENCOUNTER_CONDITION\x27\n                LIMIT 2\n                RETURN enc_edge\n            )\n            \n            FILTER LENGTH(encounter_edges) > 0\n            \n            LET encounter = DOCUMENT(encounter_edges[0]._from)\n            \n            // Find patient edges that connect to this encounter\n"

/-- Chunk 6 of the static schema string returned by `getGraphSchema` in
app/utils/schemaProvider.ts (split into chunks only so that kernel evaluation
of substring checks stays within stack limits). -/
def schemaChunk6 : String :=
  "            LET patient_edges = (\n              FOR pat_edge IN MedGraph_node_to_MedGraph_node\n                FILTER pat_edge._to == encounter._id\n                FILTER pat_edge.relationship_type == \x27PATIENT_ENCOUNTER\x27\n                LIMIT 1\n                RETURN pat_edge\n            )\n            \n            FILTER LENGTH(patient_edges) > 0\n            \n            LET patient = DOCUMENT(patient_edges[0]._from)\n            \n            // Step 3: Apply filters at the final stage\n            FILTER patient.type == \x27patient\x27\n            FILTER CONTAINS(SUBSTRING(patient.BIRTHDATE, 0, 4), \"1964\")\n            \n            LIMIT 15\n            RETURN DISTINCT \x7b\n              id: patient.ID,\n              gender: patient.GENDER,\n              birthdate: patient.BIRTHDATE,\n              race: patient.RACE,\n              condition: condition.DESCRIPTION\n            \x7d\n            \n      12. PATIENTS WITH DIABETES BORN IN SPECIFIC YEAR:\n          // This is the optimized pattern for queries about patients with conditions and birth year\n          LET entity = \"diabetes\"\n          \n          // Step 1: Get matching conditions\n          LET matching_conditions = (\n            FOR doc IN MedGraph_node\n              FILTER doc.type == \"condition\"\n              FILTER LOWER(doc.DESCRIPTION) LIKE CONCAT(\"%\", LOWER(entity), \"%\")\n              LIMIT 10000\n              RETURN doc\n          )\n          \n          // Step 2: Process patient lookup in stages\n          FOR condition IN matching_conditions\n            LET encounter_edges = (\n"

/-- Chunk 7 of the static schema string returned by `getGraphSchema` in
app/utils/schemaProvider.ts (split into chunks only so that kernel evaluation
of substring checks stays within stack limits). -/
def schemaChunk7 : String :=
  "              FOR enc_edge IN MedGraph_node_to_MedGraph_node\n                FILTER enc_edge._to == condition._id\n                FILTER enc_edge.relationship_type == \x27ENCOUNTER_CONDITION\x27\n                LIMIT 2\n                RETURN enc_edge\n            )\n            \n            FILTER LENGTH(encounter_edges) > 0\n            \n            LET encounter = DOCUMENT(encounter_edges[0]._from)\n            \n            LET patient_edges = (\n              FOR pat_edge IN MedGraph_node_to_MedGraph_node\n                FILTER pat_edge._to == encounter._id\n                FILTER pat_edge.relationship_type == \x27PATIENT_ENCOUNTER\x27\n                LIMIT 1\n                RETURN pat_edge\n            )\n            \n            FILTER LENGTH(patient_edges) > 0\n            \n            LET patient = DOCUMENT(patient_edges[0]._from)\n            \n            // Step 3: Apply birth year filter\n            FILTER patient.type == \x27patient\x27\n            FILTER CONTAINS(SUBSTRING(patient.BIRTHDATE, 0, 4), \"1964\")\n            \n            LIMIT 15\n            RETURN DISTINCT \x7b\n              id: patient.ID,\n              gender: patient.GENDER,\n              birthdate: patient.BIRTHDATE,\n              race: patient.RACE,\n              condition: condition.DESCRIPTION\n            \x7d\n            \n      13. DISTRIBUTION QUERIES - For analytics on demographic distributions:\n          // Find distribution of races among patients with a specific condition\n          FOR node IN MedGraph_node\n            FILTER node.type == \x27condition\x27\n            FILTER LOWER(node.DESCRIPTION) LIKE \x27%diabetes%\x27\n"

/-- Chunk 8 of the static schema string returned by `getGraphSchema` in
app/utils/schemaProvider.ts (split into chunks only so that kernel evaluation
of substring checks stays within stack limits). -/
def schemaChunk8 : String :=
  "            FOR patient IN MedGraph_node\n              FILTER patient.type == \x27patient\x27\n              FILTER patient.ID == node.PATIENT\n              COLLECT race = patient.RACE WITH COUNT INTO count\n              SORT count DESC\n              RETURN \x7b race: race, count: count \x7d\n              \n      14. LIST PATIENTS BORN IN SPECIFIC YEAR:\n          // Simple query for patients born in a specific year without condition filtering\n          FOR node IN MedGraph_node\n            FILTER node.type == \x27patient\x27\n            FILTER CONTAINS(node.BIRTHDATE, \x271997\x27)\n            SORT node.BIRTHDATE DESC\n            LIMIT 15\n            RETURN \x7b \n              id: node.ID, \n              gender: node.GENDER, \n              birthdate: node.BIRTHDATE, \n              race: node.RACE \n            \x7d\n    "

/-- The full static schema/examples text returned by getGraphSchema() in
app/utils/schemaProvider.ts. -/
def getGraphSchema : String :=
  schemaChunk1 ++ schemaChunk2 ++ schemaChunk3 ++ schemaChunk4 ++ schemaChunk5 ++ schemaChunk6 ++ schemaChunk7 ++ schemaChunk8

/-- Attempt-1 prompt of generateLLMPrompt (app/utils/llmPromptGenerator.ts lines 18-23), text before the question. -/
def firstA1 : String :=
  "\n      You\x27re a database expert. Transform this question into a proper AQL query for an ArangoDB medical database:\n      Question: "

/-- Attempt-1 prompt, text between the question and the schema. -/
def firstA2 : String :=
  "\n\n      "

/-- Attempt-1 prompt, text after the schema. -/
def firstA3 : String :=
  "\n    "

/-- Count-shape guidance block of the first attempt (lines 30-39). -/
def countGuidance1 : String :=
  "\n      IMPORTANT CONTEXT:\n      - This is a COUNT query asking \"how many\" - you must return a COUNT, not a list of records\n      - For \"how many\" questions, always use LENGTH() or COUNT() functions\n      - Make sure your query returns a single number or an object with count properties\n      - Examples of correct count queries:\n        1. RETURN LENGTH(FOR node IN MedGraph_node FILTER node.type == \x27patient\x27 AND node.RACE == \x27white\x27 RETURN 1)\n        2. RETURN COUNT(FOR node IN MedGraph_node FILTER node.type == \x27patient\x27 AND node.RACE == \x27white\x27 RETURN 1)\n      - DO NOT just return a list of nodes or IDs for count queries\n      "

/-- General-query guidance block of the first attempt (lines 41-49), text before the optional birth-year note. -/
def generalG1 : String :=
  "\n      IMPORTANT CONTEXT:\n      - This appears to be a general query about patients, not looking for a specific condition\n      - The user is asking for patient information "

/-- General-query guidance block, text after the optional birth-year note. -/
def generalG2 : String :=
  "\n      - Use a SIMPLE direct query pattern that just filters patients, DO NOT try to join with conditions\n      - A query like example #14 will work better for this case\n      "

/-- Exact-phrase guidance block of the first attempt (lines 55-60), text before the year. -/
def exactG1 : String :=
  "\n      IMPORTANT CONTEXT:\n      - This is a specific query about patients born in "

/-- Exact-phrase guidance block, text after the year. -/
def exactG2 : String :=
  "\n      - The user DOES NOT appear to be looking for patients with specific conditions\n      - Use a SIMPLE direct query pattern that just filters patients by birth year (example #14)\n      "

/-- Complex-relationship guidance block of the first attempt (lines 62-70), text before the query type. -/
def complexG1 : String :=
  "\n      ADDITIONAL CONTEXT:\n      - This appears to be a "

/-- Complex guidance, text before the keyword list. -/
def complexG2 : String :=
  " query\n      - It involves these medical terms: "

/-- Complex guidance, text before the filter list. -/
def complexG3 : String :=
  "\n      - It includes these filters: "

/-- Complex guidance, trailing text. -/
def complexG4 : String :=
  "\n      - For complex queries like this with multiple filters, use the optimized pattern from example #11 and #12 in the schema\n      "

/-- IMPORTANT RULES block of the first attempt (lines 73-93). -/
def rulesFirst : String :=
  "\n      IMPORTANT RULES:\n      1. Provide ONLY the working AQL query, nothing else\n      2. All node types (patient, condition, etc.) are lowercase\n      3. All properties (GENDER, RACE, etc.) are UPPERCASE\n      4. For gender, use \x27M\x27 and \x27F\x27, not \x27Male\x27 and \x27Female\x27\n      5. When querying for patients with gender, always include the filter: FILTER node.GENDER == \x27M\x27 OR node.GENDER == \x27F\x27\n      6. Return properties with their original case (birthdate: node.BIRTHDATE)\n      7. Don\x27t use terms like \"white\" as gender values, they are race values\n      8. For year specific queries (like birth year), use CONTAINS or LIKE operator\n      9. For condition queries, always use LOWER() and CONTAINS() or LIKE for case-insensitive matching\n      10. For complex relationship traversals, use the example patterns from the schema examples\n      11. For complex queries involving conditions and patients, use the optimized pattern from example #11 to avoid performance issues\n      12. Break down complex queries into stages using LET statements for better performance\n      13. For queries involving patients with conditions AND birth years, always use the optimized pattern in example #12\n      14. For distribution analytics, use COLLECT with COUNT as shown in example #13\n      15. If the user is just asking for patients born in a specific year WITHOUT mentioning conditions, use a simple query directly on patients (example #14)\n      16. For \"how many\" questions, return COUNT or LENGTH, not a list of records\n      \n      AQL QUERY:\n    "

/-- Retry prompt of generateLLMPrompt (lines 99-111), text before the previous query. -/
def retryB1 : String :=
  "\n      You\x27re a database expert. The following AQL query didn\x27t produce the expected results:\n      \n      QUERY: "

/-- Retry prompt, text before the original question. -/
def retryB2 : String :=
  "\n      \n      ORIGINAL QUESTION: "

/-- Retry prompt, text before the error message. -/
def retryB3 : String :=
  "\n      \n      ERROR/ISSUE: "

/-- Retry prompt, text before the attempt number. -/
def retryB4 : String :=
  "\n      \n      This is attempt "

/-- Retry prompt, text between the attempt number and the schema. -/
def retryB5 : String :=
  " out of 8. Please generate an improved AQL query that will correctly answer the question.\n      \n      "

/-- Retry prompt, text after the schema. -/
def retryB6 : String :=
  "\n    "

/-- Count-correction block of retry prompts (lines 118-130). -/
def countCritical : String :=
  "\n      CRITICAL ERROR: The previous query returned a list of records, but for a \"how many\" question, we need a COUNT.\n      The query should return a single number or an object with count properties.\n      \n      Use a query like:\n      RETURN LENGTH(\n        FOR node IN MedGraph_node\n          FILTER node.type == \x27patient\x27 AND node.RACE == \x27white\x27\n          RETURN 1\n      )\n      \n      DO NOT just return a list of nodes or IDs - that would be incorrect for a count query.\n      "

/-- Broadened-query escalation block for keyword-and-year intents (lines 135-161), text before the keyword list. -/
def escKY1 : String :=
  "\n        IMPORTANT: The previous query found no results. There might not be any "

/-- Escalation block, text between the keyword list and the year. -/
def escKY2 : String :=
  " patients born in "

/-- Escalation block, text between the first and second year interpolations. -/
def escKY3 : String :=
  ".\n        Try one of these approaches:\n        1. If the user is asking about patients born in "

/-- Escalation block, text after the second year interpolation; contains the directive to drop the condition filter and run a general patient query. -/
def escKY4 : String :=
  " with their condition information, try a general patient query (example #14):\n          FOR node IN MedGraph_node\n            FILTER node.type == \x27patient\x27\n            FILTER CONTAINS(node.BIRTHDATE, \x27"

/-- Escalation block, text between the third year interpolation and the second keyword list. -/
def escKY5 : String :=
  "\x27)\n            LIMIT 15\n            RETURN \x7b id: node.ID, birthdate: node.BIRTHDATE, gender: node.GENDER, race: node.RACE \x7d\n            \n        2. If the user is specifically asking about "

/-- Escalation block, text before the first keyword. -/
def escKY6 : String :=
  " patients, try searching without the year filter to see if any exist:\n          LET entity = \""

/-- Escalation block, trailing text. -/
def escKY7 : String :=
  "\"\n          LET matching_conditions = (\n            FOR doc IN MedGraph_node\n              FILTER doc.type == \"condition\"\n              FILTER LOWER(doc.DESCRIPTION) LIKE CONCAT(\"%\", LOWER(entity), \"%\")\n              LIMIT 10000\n              RETURN doc\n          )\n          // Then the rest of the optimized pattern without the year filter\n        "

/-- Year-only escalation block (lines 163-170), text before the year. -/
def escY1 : String :=
  "\n        IMPORTANT: The previous query found no results. Try the simple approach in example #14:\n        FOR node IN MedGraph_node\n          FILTER node.type == \x27patient\x27\n          FILTER CONTAINS(node.BIRTHDATE, \x27"

/-- Year-only escalation block, trailing text. -/
def escY2 : String :=
  "\x27)\n          LIMIT 15\n          RETURN \x7b id: node.ID, birthdate: node.BIRTHDATE, gender: node.GENDER, race: node.RACE \x7d\n        "

/-- IMPORTANT RULES block of retry prompts (lines 174-194). -/
def rulesRetry : String :=
  "\n      IMPORTANT RULES:\n      1. Provide ONLY the working AQL query, nothing else\n      2. All node types (patient, condition, etc.) are lowercase\n      3. All properties (GENDER, RACE, etc.) are UPPERCASE\n      4. For gender, use \x27M\x27 and \x27F\x27, not \x27Male\x27 and \x27Female\x27\n      5. Specifically for questions about gender, include a filter for valid gender values: FILTER node.GENDER == \x27M\x27 OR node.GENDER == \x27F\x27\n      6. For year specific queries, make sure to include a FILTER with CONTAINS or LIKE to check for the year\n      7. Return properties with appropriate capitalization (birthdate: node.BIRTHDATE, gender: node.GENDER)\n      8. For condition queries, use LOWER() with CONTAINS() or LIKE to make case-insensitive matches\n      9. When traversing relationships, use proper edge collections like MedGraph_node_to_MedGraph_node\n      10. For complex relationships like finding patients with conditions, consider using temporary variables with LET\n      11. For complex queries involving conditions and patients, always use the optimized pattern shown in example #11 and #12\n      12. Break down complex queries into stages using LET statements for better performance\n      13. For questions involving patients with conditions AND birth years, always use the optimized pattern in example #12\n      14. For distribution analytics, use COLLECT with COUNT as shown in example #13\n      15. If the user is just asking for patients born in a specific year WITHOUT mentioning specific conditions, use a simple query directly on patients (example #14)\n      16. For \"how many\" questions, return COUNT or LENGTH, not a list of records\n      \n      IMPROVED AQL QUERY:\n    "

/-- JS `Array.prototype.join(", ")`. -/
def joinComma (l : List String) : String := String.intercalate ", " l

/-- JS `Object.entries(intent.filters).map(([k, v]) => k + "=" + v).join(", ")`
with the insertion order of `analyzeQueryIntent` (year, gender, race). -/
def filtersEntries (f : QueryFilters) : String :=
  joinComma
    ((match f.year with | some y => ["year=" ++ y] | none => [])
      ++ (match f.gender with | some g => ["gender=" ++ g] | none => [])
      ++ (match f.race with | some r => ["race=" ++ r] | none => []))

/-- Model of `generateLLMPrompt` (app/utils/llmPromptGenerator.ts lines
9-198).  First attempt: schema plus at most one guidance block, chosen by
priority count-shape, general-query, exact-phrase, complex.  Later
attempts: previous query, feedback, schema, then either the
count-correction block, or (from attempt 3 on, when the feedback reports
no results) a broadened-query escalation block. -/
def generateLLMPrompt (userQuery : String) (intent : QueryIntent) (attempt : Nat)
    (previousQuery : String) (errorMessage : String) : String :=
  if attempt == 1 then
    let base := firstA1 ++ userQuery ++ firstA2 ++ getGraphSchema ++ firstA3
    let guided :=
      if intent.queryType == "count" && jsIncludes (jsLower userQuery) "how many" then
        base ++ countGuidance1
      else if intent.generalQuery then
        base ++ generalG1
          ++ (if optTruthyS intent.filters.year then
                "born in " ++ intent.filters.year.getD "" else "")
          ++ generalG2
      else if intent.exactQuery && optTruthyS intent.filters.year
          && intent.keywords.length == 0 then
        base ++ exactG1 ++ intent.filters.year.getD "" ++ exactG2
      else if intent.complexity == "complex" then
        base ++ complexG1 ++ intent.queryType ++ complexG2 ++ joinComma intent.keywords
          ++ complexG3 ++ filtersEntries intent.filters ++ complexG4
      else base
    guided ++ rulesFirst
  else
    let base := retryB1 ++ previousQuery ++ retryB2 ++ userQuery ++ retryB3
      ++ errorMessage ++ retryB4 ++ toString attempt ++ retryB5 ++ getGraphSchema ++ retryB6
    let guided :=
      if intent.queryType == "count" && jsIncludes (jsLower userQuery) "how many" then
        base ++ countCritical
      else if decide (3 ≤ attempt) && jsIncludes errorMessage "No results" then
        if decide (0 < intent.keywords.length) && optTruthyS intent.filters.year then
          base ++ escKY1 ++ joinComma intent.keywords ++ escKY2
            ++ intent.filters.year.getD "" ++ escKY3 ++ intent.filters.year.getD ""
            ++ escKY4 ++ intent.filters.year.getD "" ++ escKY5
            ++ joinComma intent.keywords ++ escKY6 ++ intent.keywords.headD ""
            ++ escKY7
        else if optTruthyS intent.filters.year then
          base ++ escY1 ++ intent.filters.year.getD "" ++ escY2
        else base
      else base
    guided ++ rulesRetry

/-- The prompt built at the start of a loop iteration of
`executeQueryWithLLM` (lines 69-77): attempt number is the incremented
counter, the previous query is the last history entry (or the empty
string), and the feedback is `promptErrorInfo`. -/
def promptAt (env : ExecEnv) (st : LoopState) : String :=
  generateLLMPrompt env.userQuery env.intent (st.attempts + 1)
    (st.attemptHistory.getLastD "") (promptErrorInfo (st.attempts + 1) st.result)

/-- One iteration of the while loop of `executeQueryWithLLM` (lines
57-179).  In order: increment the counter; build the prompt; invoke the
generation service (a thrown error continues the loop); clean and record
the query; execute it (a thrown error or timeout continues the loop — the
timeout handler computes `timeoutMessage` but stores it in a variable
that is never read); after at least three attempts with no rows on a
keyword-plus-year intent, run the general fallback query and accept its
rows if any; finally accept when `isValidResult` holds or the row set is
non-empty. -/
def runStep (env : ExecEnv) (st : LoopState) : StepRes :=
  let attempts := st.attempts + 1
  let errInfo := promptErrorInfo attempts st.result
  let trace := st.errorInfoTrace ++ [errInfo]
  match env.llm st.llmIdx (promptAt env st) with
  | none => .next ⟨attempts, st.result, st.attemptHistory, st.llmIdx + 1, st.dbIdx, trace⟩
  | some generation =>
    let aqlQuery := cleanAqlQuery generation
    let hist := st.attemptHistory ++ [aqlQuery]
    match env.db st.dbIdx with
    | none => .next ⟨attempts, st.result, hist, st.llmIdx + 1, st.dbIdx + 1, trace⟩
    | some rs =>
      if rs.isEmpty && decide (3 ≤ attempts) && decide (0 < env.intent.keywords.length)
          && optTruthyS env.intent.filters.year then
        let generalQuery := generateYearPatientFallbackQuery (env.intent.filters.year.getD "")
        let hist2 := hist ++ [generalQuery]
        match env.db (st.dbIdx + 1) with
        | none => .next ⟨attempts, rs, hist2, st.llmIdx + 1, st.dbIdx + 2, trace⟩
        | some generalData =>
          if !generalData.isEmpty then
            .done ⟨generalQuery, generalData, attempts, hist2, trace⟩
          else if isValidResult rs env.intent.queryType env.userQuery env.intent
              || !rs.isEmpty then
            .done ⟨aqlQuery, rs, attempts, hist2, trace⟩
          else
            .next ⟨attempts, rs, hist2, st.llmIdx + 1, st.dbIdx + 2, trace⟩
      else
        if isValidResult rs env.intent.queryType env.userQuery env.intent
            || !rs.isEmpty then
          .done ⟨aqlQuery, rs, attempts, hist, trace⟩
        else
          .next ⟨attempts, rs, hist, st.llmIdx + 1, st.dbIdx + 1, trace⟩

/-- The while loop, indexed by the remaining fuel `maxAttempts - attempts`.
When the fuel runs out the loop exits with the persisted row set and the
empty `successfulQuery`, as at lines 181-187 of the source. -/
def loopGo (env : ExecEnv) : Nat → LoopState → ExecResult
  | 0, st => ⟨"", st.result, st.attempts, st.attemptHistory, st.errorInfoTrace⟩
  | fuel + 1, st =>
    match runStep env st with
    | .done r => r
    | .next st' => loopGo env fuel st'

/-- Model of `executeQueryWithLLM` (app/utils/queryExecutor.ts lines
14-188): the fast path for general year-only intents (which runs the
fallback query once and returns its rows when non-empty without touching
the attempt history), followed by the refinement loop. -/
def executeQueryWithLLM (userQuery : String) (llm : Nat → String → Option String)
    (db : Nat → Option (List JsVal)) (intent : QueryIntent) : ExecResult :=
  let env : ExecEnv := ⟨userQuery, intent, llm, db⟩
  if intent.generalQuery && optTruthyS intent.filters.year
      && intent.keywords.length == 0 then
    let directYearQuery := generateYearPatientFallbackQuery (intent.filters.year.getD "")
    match db 0 with
    | some yearPatients =>
      if 0 < yearPatients.length then
        ⟨directYearQuery, yearPatients, 1, [directYearQuery], []⟩
      else loopGo env maxAttempts ⟨0, [], [], 0, 1, []⟩
    | none => loopGo env maxAttempts ⟨0, [], [], 0, 1, []⟩
  else loopGo env maxAttempts ⟨0, [], [], 0, 0, []⟩

/-! ## Request guard of the route handler (app/api/query/route.ts) -/

/-- External collaborators that the route handler can invoke after the
input guard: the greeting/off-topic gate, the intent classifier, the
generation service and the data store. -/
inductive ExtCall where
  | detectIntent | classify | llm | db
deriving DecidableEq

/-- Outcome of the route handler: an early HTTP error response, or the
result of the rest of the pipeline. -/
inductive PostOutcome (α : Type) where
  | badRequest (status : Nat) (message : String)
  | processed (result : α)

/-- Model of the input guard of `POST` (app/api/query/route.ts lines
792-805 and the utils variant lines 82-95): read `body.query` (absent or
null becomes the empty string), and when its trim is empty answer with
HTTP 400 `Query is required` before anything else runs.  The remainder of
the handler is the continuation `rest`; its external calls are traced so
that the guard theorem can state that no collaborator is invoked. -/
def POSTguard {α : Type} (bodyQuery : Option String)
    (rest : String → α × List ExtCall) : PostOutcome α × List ExtCall :=
  let userQuery := bodyQuery.getD ""
  if jsTrim userQuery == "" then
    (PostOutcome.badRequest 400 "Query is required", [])
  else
    let r := rest userQuery
    (PostOutcome.processed r.1, r.2)

/-! ## Concrete inputs used by the theorems below -/

/-- Counting question that contains (but does not start with) the phrase
`how many`; `analyzeQueryIntent` classifies it as a count query. -/
def c1Question : String := "count how many patients are there"

/-- Record list of length two returned for `c1Question`. -/
def c1Records : List JsVal :=
  [JsVal.obj [("id", JsVal.str "p1")], JsVal.obj [("id", JsVal.str "p2")]]

/-- Counting question starting with `how many`. -/
def c1WitnessQuestion : String := "How many patients are there?"

/-- Record list of length eleven (more than ten records). -/
def c1LongRecords : List JsVal := List.replicate 11 (JsVal.obj [("id", JsVal.str "p1")])

/-- Question used for the loop-acceptance run. -/
def c2Question : String := "list patients"

/-- Text the generation service answers in the loop-acceptance run. -/
def c2Gen : String := "FOR n IN MedGraph_node RETURN n"

/-- Rows the store answers in the loop-acceptance run. -/
def c2Rows : List JsVal := [JsVal.obj [("id", JsVal.str "p1")]]

/-- Environment of the loop-acceptance run. -/
def c2Env : ExecEnv :=
  ⟨c2Question, analyzeQueryIntent c2Question, fun _ _ => some c2Gen, fun _ => some c2Rows⟩

/-- Initial loop state. -/
def c2State : LoopState := ⟨0, [], [], 0, 0, []⟩

/-- Keyword-plus-year counting question driving the history-length run. -/
def c3Question : String := "How many patients with diabetes born in 1964?"

/-- Generation service that always answers the same count query. -/
def c3Llm : Nat → String → Option String :=
  fun _ _ => some "RETURN LENGTH(FOR n IN MedGraph_node RETURN 1)"

/-- Data store that always answers an empty row set. -/
def c3Db : Nat → Option (List JsVal) := fun _ => some []

/-- Fenced, language-tagged raw model response. -/
def c4Wrapped : String := "\x60\x60\x60aql\nFOR d IN MedGraph_node RETURN d\n\x60\x60\x60"

/-- Raw model response on which cleaning is not idempotent: one pass
strips one `aql` tag and exposes a second one. -/
def c4BadInput : String := "aqlaql RETURN 1"

/-- Keyword-plus-year data question whose first attempt times out. -/
def c5Question : String := "Patients with diabetes born in 1964"

/-- Generation service answering a naive traversal query. -/
def c5Llm : Nat → String → Option String :=
  fun _ _ => some "FOR c IN MedGraph_node RETURN c"

/-- Data store on which every execution times out or errors. -/
def c5Db : Nat → Option (List JsVal) := fun _ => none

/-- Keyword-plus-year counting question (count-correction precedence). -/
def c6Question : String := "How many patients with diabetes born in 1964?"

/-- Keyword-plus-year data question (escalation reachable). -/
def c6DataQuestion : String := "Patients with diabetes born in 1964"

/-- A previous query text fed back to the prompt builder. -/
def c6PrevQuery : String := "FOR node IN MedGraph_node RETURN node"

/-- The text of the broadened-query escalation directive: the escalation
block of `generateLLMPrompt` suggests dropping the condition filter and
running a general patient query while keeping the year filter.  This
sentence fragment occurs in the escalation block (constant `escKY4`) and
nowhere else in any prompt component. -/
def broadenDirective : String := "try a general patient query (example #14)"

/-- Data question with a female gender filter. -/
def c7Question : String := "list female patients"

/-- Record whose gender field is `F`. -/
def c7RecordF : JsVal := JsVal.obj [("gender", JsVal.str "F")]

/-- Record whose gender field is `M`. -/
def c7RecordM : JsVal := JsVal.obj [("gender", JsVal.str "M")]

/-- A continuation for the route handler that would record calls to every
external collaborator if it ran. -/
def c8Rest : String → Nat × List ExtCall :=
  fun _ => (0, [ExtCall.detectIntent, ExtCall.classify, ExtCall.llm, ExtCall.db])

/-- Question whose text contains the substring `males` inside the word
`females`. -/
def c10Question : String := "How many females are in the database?"

/-! ## General lemmas about the string primitives and the loop -/

theorem containsSub_iff {pat l : List Char} : containsSub pat l = true ↔ pat <:+: l := by
  induction l with
  | nil => simp [containsSub, List.isEmpty_iff, List.infix_nil]
  | cons c rest ih =>
    simp only [containsSub, Bool.or_eq_true, List.isPrefixOf_iff_prefix, ih,
      List.infix_cons_iff]

theorem containsSub_eq_false_iff {pat l : List Char} :
    containsSub pat l = false ↔ ¬ pat <:+: l := by
  rw [← containsSub_iff]
  cases containsSub pat l <;> simp

theorem infix_append_of_left {p a : List Char} (b : List Char) (h : p <:+: a) :
    p <:+: a ++ b := h.trans (List.prefix_append a b).isInfix

theorem infix_append_of_right {p b : List Char} (a : List Char) (h : p <:+: b) :
    p <:+: a ++ b := h.trans (List.suffix_append a b).isInfix

theorem not_infix_chunk {p A B : List Char} (hp : p ≠ [])
    (h1 : ¬ p <:+: A ++ B.take (p.length - 1)) (h2 : ¬ p <:+: B) :
    ¬ p <:+: A ++ B := by
  rintro ⟨s, t, hst⟩
  by_cases hlen : A.length ≤ s.length
  · have hA : A <+: s := by
      have hA' : A <+: A ++ B := List.prefix_append A B
      have hs' : s <+: A ++ B := ⟨p ++ t, by simpa [List.append_assoc] using hst⟩
      exact List.prefix_of_prefix_length_le hA' hs' hlen
    obtain ⟨s', rfl⟩ := hA
    apply h2
    refine ⟨s', t, ?_⟩
    rw [List.append_assoc]
    have hst2 : A ++ (s' ++ (p ++ t)) = A ++ B := by
      simpa [List.append_assoc] using hst
    exact List.append_cancel_left hst2
  · push_neg at hlen
    apply h1
    by_cases hB : B.length ≤ p.length - 1
    · rw [List.take_of_length_le hB]
      exact ⟨s, t, hst⟩
    · push_neg at hB
      have hsp : s ++ p <+: A ++ B := ⟨t, by simpa [List.append_assoc] using hst⟩
      have hq : A ++ B.take (p.length - 1) <+: A ++ B := by
        obtain ⟨u, hu⟩ := List.take_prefix (p.length - 1) B
        exact ⟨u, by rw [List.append_assoc, hu]⟩
      have hpl : 1 ≤ p.length := List.length_pos.mpr hp
      have hlen2 : (s ++ p).length ≤ (A ++ B.take (p.length - 1)).length := by
        simp only [List.length_append, List.length_take]
        omega
      have hpref : s ++ p <+: A ++ B.take (p.length - 1) :=
        List.prefix_of_prefix_length_le hsp hq hlen2
      exact ((List.suffix_append s p).isInfix).trans hpref.isInfix

theorem dropWhile_head_false (l : List Char) {a : Char}
    (h : (l.dropWhile isJsWs).head? = some a) : isJsWs a = false := by
  induction l with
  | nil => simp [List.dropWhile] at h
  | cons c rest ih =>
    rw [List.dropWhile_cons] at h
    by_cases hc : isJsWs c = true
    · rw [if_pos hc] at h
      exact ih h
    · rw [if_neg hc] at h
      simp only [List.head?_cons, Option.some.injEq] at h
      rw [← h]
      exact Bool.not_eq_true _ ▸ (by simpa using hc)

theorem dropWhile_eq_self_of_head {l : List Char}
    (h : ∀ a, l.head? = some a → isJsWs a = false) :
    l.dropWhile isJsWs = l := by
  cases l with
  | nil => rfl
  | cons c rest =>
    rw [List.dropWhile_cons, if_neg]
    simp [h c rfl]

theorem trimChars_idem (l : List Char) : trimChars (trimChars l) = trimChars l := by
  unfold trimChars
  set L := l.dropWhile isJsWs with hL
  set S := L.reverse.dropWhile isJsWs with hS
  have h1 : S.reverse.dropWhile isJsWs = S.reverse := by
    apply dropWhile_eq_self_of_head
    intro a ha
    cases hSr : S.reverse with
    | nil => rw [hSr] at ha; simp at ha
    | cons b R' =>
      rw [hSr] at ha
      simp only [List.head?] at ha
      cases ha
      -- S.reverse is a prefix of L, and the head of L is not whitespace
      have hpre : S.reverse <+: L := by
        have hsuf : S <:+ L.reverse := by
          rw [hS]; exact List.dropWhile_suffix isJsWs
        have := List.reverse_prefix.mpr hsuf
        simpa using this
      obtain ⟨u, hu⟩ := hpre
      have hhead : L.head? = some a := by
        rw [← hu, hSr]
        rfl
      exact dropWhile_head_false l (by rw [← hL]; exact hhead)
  rw [h1, List.reverse_reverse, hS, List.dropWhile_idempotent]

theorem removeTicksL_eq_self : ∀ l : List Char, containsSub fenceTicks l = false → removeTicksL l = l := by
  intro l
  induction l using removeTicksL.induct with
  | case1 rest ih =>
    intro h
    exfalso
    simp [containsSub, fenceTicks, List.isPrefixOf] at h
  | case2 c rest hne ih =>
    intro h
    simp only [containsSub, Bool.or_eq_false_iff] at h
    rw [removeTicksL]
    · rw [ih h.2]
    · exact hne
  | case3 =>
    intro _
    rfl

theorem isPrefixOf_false_mono {p q l : List Char} (hpq : p <+: q)
    (h : p.isPrefixOf l = false) : q.isPrefixOf l = false := by
  cases hql : q.isPrefixOf l with
  | false => rfl
  | true =>
    exfalso
    have hq : q <+: l := List.isPrefixOf_iff_prefix.mp hql
    have hp : p.isPrefixOf l = true := List.isPrefixOf_iff_prefix.mpr (hpq.trans hq)
    rw [hp] at h
    cases h

theorem cleanAqlQuery_stable (y : String)
    (hno : containsSub fenceTicks y.data = false)
    (ha : "aql".data.isPrefixOf (y.data.map Char.toLower) = false)
    (hs : "sql".data.isPrefixOf (y.data.map Char.toLower) = false)
    (htrim : trimChars y.data = y.data) :
    cleanAqlQuery y = y := by
  have ha4 : "aql:".data.isPrefixOf (y.data.map Char.toLower) = false :=
    isPrefixOf_false_mono (by decide) ha
  have hs4 : "sql:".data.isPrefixOf (y.data.map Char.toLower) = false :=
    isPrefixOf_false_mono (by decide) hs
  unfold cleanAqlQuery
  simp only [hno, Bool.false_eq_true, if_false, stripLangTag, ha, hs, ha4, hs4]
  rw [removeTicksL_eq_self y.data hno, htrim]

theorem trimChars_data_cleanAqlQuery (x : String) :
    trimChars (cleanAqlQuery x).data = (cleanAqlQuery x).data := by
  unfold cleanAqlQuery
  exact trimChars_idem _

theorem loopGo_succ (env : ExecEnv) (f : Nat) (st : LoopState) :
    loopGo env (f + 1) st
      = match runStep env st with
        | .done r => r
        | .next st' => loopGo env f st' := rfl

theorem loopGo_done {env : ExecEnv} {f : Nat} {st : LoopState} {r : ExecResult}
    (h : runStep env st = .done r) : loopGo env (f + 1) st = r := by
  rw [loopGo_succ, h]

theorem loopGo_next {env : ExecEnv} {f : Nat} {st : LoopState} {st' : LoopState}
    (h : runStep env st = .next st') : loopGo env (f + 1) st = loopGo env f st' := by
  rw [loopGo_succ, h]

theorem runStep_spec (env : ExecEnv) (st : LoopState) :
    (∃ r, runStep env st = .done r ∧ r.attempts = st.attempts + 1 ∧
      r.attemptHistory.length ≤ st.attemptHistory.length
        + (if 3 ≤ st.attempts + 1 then 2 else 1)) ∨
    (∃ st', runStep env st = .next st' ∧ st'.attempts = st.attempts + 1 ∧
      st'.attemptHistory.length ≤ st.attemptHistory.length
        + (if 3 ≤ st.attempts + 1 then 2 else 1)) := by
  have hB : 1 ≤ (if 3 ≤ st.attempts + 1 then 2 else 1) := by split <;> omega
  rcases hllm : env.llm st.llmIdx (promptAt env st) with _ | gen
  · right
    refine ⟨⟨st.attempts + 1, st.result, st.attemptHistory, st.llmIdx + 1, st.dbIdx,
        st.errorInfoTrace ++ [promptErrorInfo (st.attempts + 1) st.result]⟩,
      by simp only [runStep, hllm], rfl, Nat.le_add_right _ _⟩
  · rcases hdb : env.db st.dbIdx with _ | rs
    · right
      refine ⟨⟨st.attempts + 1, st.result, st.attemptHistory ++ [cleanAqlQuery gen],
          st.llmIdx + 1, st.dbIdx + 1,
          st.errorInfoTrace ++ [promptErrorInfo (st.attempts + 1) st.result]⟩,
        by simp only [runStep, hllm, hdb], rfl, ?_⟩
      simp only [List.length_append, List.length_cons, List.length_nil]
      omega
    · by_cases hg : (rs.isEmpty && decide (3 ≤ st.attempts + 1)
          && decide (0 < env.intent.keywords.length)
          && optTruthyS env.intent.filters.year) = true
      · have h3 : 3 ≤ st.attempts + 1 := by
          have hg' := hg
          simp only [Bool.and_eq_true, decide_eq_true_eq] at hg'
          exact hg'.1.1.2
        have hB2 : (if 3 ≤ st.attempts + 1 then 2 else 1) = 2 := if_pos h3
        rcases hdb2 : env.db (st.dbIdx + 1) with _ | gd
        · right
          refine ⟨⟨st.attempts + 1, rs,
              (st.attemptHistory ++ [cleanAqlQuery gen])
                ++ [generateYearPatientFallbackQuery (env.intent.filters.year.getD "")],
              st.llmIdx + 1, st.dbIdx + 2,
              st.errorInfoTrace ++ [promptErrorInfo (st.attempts + 1) st.result]⟩,
            by simp only [runStep, hllm, hdb, hg, hdb2, if_true], rfl, ?_⟩
          simp only [List.length_append, List.length_cons, List.length_nil]
          omega
        · by_cases hgd : (!gd.isEmpty) = true
          · left
            refine ⟨⟨generateYearPatientFallbackQuery (env.intent.filters.year.getD ""),
                gd, st.attempts + 1,
                (st.attemptHistory ++ [cleanAqlQuery gen])
                  ++ [generateYearPatientFallbackQuery (env.intent.filters.year.getD "")],
                st.errorInfoTrace ++ [promptErrorInfo (st.attempts + 1) st.result]⟩,
              by simp only [runStep, hllm, hdb, hg, hdb2, hgd, if_true], rfl, ?_⟩
            simp only [List.length_append, List.length_cons, List.length_nil]
            omega
          · by_cases hv : (isValidResult rs env.intent.queryType env.userQuery env.intent
                || !rs.isEmpty) = true
            · left
              refine ⟨⟨cleanAqlQuery gen, rs, st.attempts + 1,
                  (st.attemptHistory ++ [cleanAqlQuery gen])
                    ++ [generateYearPatientFallbackQuery (env.intent.filters.year.getD "")],
                  st.errorInfoTrace ++ [promptErrorInfo (st.attempts + 1) st.result]⟩,
                by simp only [runStep, hllm, hdb, hg, hdb2, hgd, hv, if_true,
                  Bool.false_eq_true, if_false], rfl, ?_⟩
              simp only [List.length_append, List.length_cons, List.length_nil]
              omega
            · right
              refine ⟨⟨st.attempts + 1, rs,
                  (st.attemptHistory ++ [cleanAqlQuery gen])
                    ++ [generateYearPatientFallbackQuery (env.intent.filters.year.getD "")],
                  st.llmIdx + 1, st.dbIdx + 2,
                  st.errorInfoTrace ++ [promptErrorInfo (st.attempts + 1) st.result]⟩,
                by simp only [runStep, hllm, hdb, hg, hdb2, hgd, hv, if_true,
                  Bool.false_eq_true, if_false], rfl, ?_⟩
              simp only [List.length_append, List.length_cons, List.length_nil]
              omega
      · by_cases hv : (isValidResult rs env.intent.queryType env.userQuery env.intent
            || !rs.isEmpty) = true
        · left
          refine ⟨⟨cleanAqlQuery gen, rs, st.attempts + 1,
              st.attemptHistory ++ [cleanAqlQuery gen],
              st.errorInfoTrace ++ [promptErrorInfo (st.attempts + 1) st.result]⟩,
            by simp only [runStep, hllm, hdb, hg, hv, if_true, Bool.false_eq_true,
              if_false], rfl, ?_⟩
          simp only [List.length_append, List.length_cons, List.length_nil]
          omega
        · right
          refine ⟨⟨st.attempts + 1, rs, st.attemptHistory ++ [cleanAqlQuery gen],
              st.llmIdx + 1, st.dbIdx + 1,
              st.errorInfoTrace ++ [promptErrorInfo (st.attempts + 1) st.result]⟩,
            by simp only [runStep, hllm, hdb, hg, hv, Bool.false_eq_true, if_false],
            rfl, ?_⟩
          simp only [List.length_append, List.length_cons, List.length_nil]
          omega

theorem loopGo_attempts_le (env : ExecEnv) :
    ∀ fuel st, (loopGo env fuel st).attempts ≤ st.attempts + fuel := by
  intro fuel
  induction fuel with
  | zero =>
    intro st
    show st.attempts ≤ st.attempts + 0
    omega
  | succ f ih =>
    intro st
    rcases runStep_spec env st with ⟨r, hr, ha, _⟩ | ⟨st', hr, ha, _⟩
    · rw [loopGo_done hr]
      omega
    · rw [loopGo_next hr]
      have := ih st'
      omega

theorem loopGo_hist_le (env : ExecEnv) :
    ∀ fuel st, (loopGo env fuel st).attemptHistory.length
      ≤ st.attemptHistory.length + 2 * fuel := by
  intro fuel
  induction fuel with
  | zero =>
    intro st
    show st.attemptHistory.length ≤ st.attemptHistory.length + 2 * 0
    omega
  | succ f ih =>
    intro st
    have hif : (if 3 ≤ st.attempts + 1 then 2 else 1) ≤ 2 := by split <;> omega
    rcases runStep_spec env st with ⟨r, hr, _, hl⟩ | ⟨st', hr, _, hl⟩
    · rw [loopGo_done hr]
      omega
    · rw [loopGo_next hr]
      have := ih st'
      omega

theorem loopGo8_hist (env : ExecEnv) (st : LoopState) (h0 : st.attempts = 0) :
    (loopGo env 8 st).attemptHistory.length ≤ st.attemptHistory.length + 14 := by
  rcases runStep_spec env st with ⟨r, hr, _, hl⟩ | ⟨st1, hr, ha1, hl1⟩
  · rw [show loopGo env 8 st = r from loopGo_done hr]
    rw [h0] at hl
    simp only [show ¬ (3 ≤ 0 + 1) by omega, if_false] at hl
    omega
  · rw [show loopGo env 8 st = loopGo env 7 st1 from loopGo_next hr]
    rw [h0] at ha1 hl1
    simp only [show ¬ (3 ≤ 0 + 1) by omega, if_false] at hl1
    rcases runStep_spec env st1 with ⟨r, hr2, _, hl2⟩ | ⟨st2, hr2, _, hl2⟩
    · rw [show loopGo env 7 st1 = r from loopGo_done hr2]
      rw [ha1] at hl2
      simp only [show ¬ (3 ≤ 1 + 1) by omega, if_false] at hl2
      omega
    · rw [show loopGo env 7 st1 = loopGo env 6 st2 from loopGo_next hr2]
      rw [ha1] at hl2
      simp only [show ¬ (3 ≤ 1 + 1) by omega, if_false] at hl2
      have := loopGo_hist_le env 6 st2
      omega

/-! ## The claims -/

/-- C1 (counterexample): the Result Validator marks a record list of
length two as valid for a count intent whose question contains
`how many`.  For the question `count how many patients are there`
(classified with `queryType = count`), `isValidResult` accepts a list of
two plain records: the early count checks only reject lists longer than
ten records or questions that start with `how many`, and control falls
through to the general-query branch which accepts any record with an id
field. -/
theorem C1_counterexample :
    (analyzeQueryIntent c1Question).queryType = "count"
    ∧ jsIncludes (jsLower c1Question) "how many" = true
    ∧ 1 < c1Records.length
    ∧ c1Records.all JsVal.isObj = true
    ∧ isValidResult c1Records (analyzeQueryIntent c1Question).queryType c1Question
        (analyzeQueryIntent c1Question) = true := by
  refine ⟨by decide, by decide, by decide, by decide, by decide⟩

/-- C1 (amended): for a count intent whose question contains `how many`,
the Result Validator rejects a record list of length greater than ten
whose first element is not a number and has no `count` key.  (As stated
the claim is false: shorter record lists can be accepted, and the
Refinement Loop accepts any non-empty result regardless of the
verdict.) -/
theorem C1_theorem (results : List JsVal) (q : String) (intent : QueryIntent) (r0 : JsVal)
    (hhead : results.head? = some r0)
    (hcount : intent.queryType = "count")
    (hhm : jsIncludes (jsLower q) "how many" = true)
    (hlen : 10 < results.length)
    (hnum : r0.isNum = false)
    (hkey : hasOwn r0 "count" = false) :
    isValidResult results intent.queryType q intent = false := by
  have hd : decide (10 < results.length) = true := decide_eq_true hlen
  rw [hcount]
  unfold isValidResult
  rw [hhead]
  simp [hhm, hd, hnum, hkey]

/-- C1 (witness): `C1_theorem` applied to an eleven-record list and the
question `How many patients are there?`. -/
theorem C1_witness :
    c1LongRecords.head? = some (JsVal.obj [("id", JsVal.str "p1")])
    ∧ (analyzeQueryIntent c1WitnessQuestion).queryType = "count"
    ∧ 10 < c1LongRecords.length
    ∧ isValidResult c1LongRecords (analyzeQueryIntent c1WitnessQuestion).queryType
        c1WitnessQuestion (analyzeQueryIntent c1WitnessQuestion) = false :=
  ⟨rfl, by decide, by decide,
    C1_theorem c1LongRecords c1WitnessQuestion (analyzeQueryIntent c1WitnessQuestion)
      (JsVal.obj [("id", JsVal.str "p1")]) rfl (by decide) (by decide) (by decide)
      (by decide) (by decide)⟩

/-- C2: in every iteration of the refinement loop, an execution that
returns at least one row is accepted as the final result and terminates
the loop regardless of the validity verdict — `runStep` returns `done`
with exactly those rows — and the acceptance condition
`isValidResult rs _ _ _ || !rs.isEmpty` of the source is equal to
`!rs.isEmpty`, so the verdict never changes control flow (on an empty
result set the verdict is always false). -/
theorem C2_theorem (env : ExecEnv) (st : LoopState) (gen : String) (rs : List JsVal)
    (hllm : env.llm st.llmIdx (promptAt env st) = some gen)
    (hdb : env.db st.dbIdx = some rs)
    (hne : rs ≠ []) :
    runStep env st = .done ⟨cleanAqlQuery gen, rs, st.attempts + 1,
        st.attemptHistory ++ [cleanAqlQuery gen],
        st.errorInfoTrace ++ [promptErrorInfo (st.attempts + 1) st.result]⟩
    ∧ ∀ (rs' : List JsVal) (t q : String) (i : QueryIntent),
        (isValidResult rs' t q i || !rs'.isEmpty) = !rs'.isEmpty := by
  constructor
  · have hempty : rs.isEmpty = false := by
      simp [List.isEmpty_iff, hne]
    simp only [runStep, hllm, hdb, hempty, Bool.false_and, Bool.false_eq_true, if_false,
      Bool.not_false, Bool.or_true, if_true]
  · intro rs' t q i
    cases rs' with
    | nil =>
      have hvnil : isValidResult [] t q i = false := rfl
      rw [hvnil]
      simp
    | cons a l => simp

/-- C2 (witness): `C2_theorem` applied to a concrete environment in which
the generation service answers a query and the store returns one row. -/
theorem C2_witness :
    c2Rows.isEmpty = false
    ∧ runStep c2Env c2State = .done ⟨cleanAqlQuery c2Gen, c2Rows, c2State.attempts + 1,
        c2State.attemptHistory ++ [cleanAqlQuery c2Gen],
        c2State.errorInfoTrace ++ [promptErrorInfo (c2State.attempts + 1) c2State.result]⟩ :=
  ⟨by decide, (C2_theorem c2Env c2State c2Gen c2Rows rfl rfl
      (by unfold c2Rows; exact List.cons_ne_nil _ _)).1⟩

/-- C7 (counterexample): for the intent of `list female patients`
(`queryType = data`, gender filter `F`), the Result Validator accepts the
two-record list `[{gender: F}, {gender: M}]` even though its second
record has gender `M`: the gender check uses an existential scan of the
records, not a universal one. -/
theorem C7_counterexample :
    (analyzeQueryIntent c7Question).queryType = "data"
    ∧ (analyzeQueryIntent c7Question).filters.gender = some "F"
    ∧ isValidResult [c7RecordF, c7RecordM] (analyzeQueryIntent c7Question).queryType
        c7Question (analyzeQueryIntent c7Question) = true
    ∧ strictEqStr (jsOrChain c7RecordM genderKeys) "F" = false := by
  refine ⟨by decide, by decide, by decide, by decide⟩

/-- C7 (amended): for a data intent with gender filter `F`, if the Result
Validator marks a record list as valid then at least one record in the
list has its gender field equal to `F` (not every record, see
`C7_counterexample`). -/
theorem C7_theorem (results : List JsVal) (q : String) (intent : QueryIntent)
    (hq : intent.queryType = "data")
    (hg : intent.filters.gender = some "F")
    (hv : isValidResult results intent.queryType q intent = true) :
    ∃ item ∈ results, strictEqStr (jsOrChain item genderKeys) "F" = true := by
  rw [hq] at hv
  cases results with
  | nil => simp [isValidResult] at hv
  | cons r0 rest =>
    unfold isValidResult at hv
    rw [hg] at hv
    simp only [List.head?_cons] at hv
    simp only [show (("data" : String) == "count") = false from rfl,
      Bool.false_eq_true, if_false] at hv
    simp only [show optTruthyS (some "F") = true from rfl,
      show (("data" : String) == "data") = true from rfl, Bool.and_true, Bool.true_and,
      if_true] at hv
    simpa using List.any_eq_true.mp hv

/-- C7 (witness): `C7_theorem` applied to the mixed-gender list accepted
in `C7_counterexample`. -/
theorem C7_witness :
    (analyzeQueryIntent c7Question).queryType = "data"
    ∧ (analyzeQueryIntent c7Question).filters.gender = some "F"
    ∧ ∃ item ∈ [c7RecordF, c7RecordM], strictEqStr (jsOrChain item genderKeys) "F" = true :=
  ⟨by decide, by decide,
    C7_theorem [c7RecordF, c7RecordM] c7Question (analyzeQueryIntent c7Question)
      (by decide) (by decide) (by decide)⟩

/-- C8: for every request whose question text is absent, empty or
whitespace-only, the route handler answers HTTP 400 `Query is required`
before anything else runs: the continuation holding the greeting gate,
the intent classifier, the generation service and the data store is never
invoked, so the traced list of external calls is empty. -/
theorem C8_theorem {α : Type} (bodyQuery : Option String) (rest : String → α × List ExtCall)
    (h : jsTrim (bodyQuery.getD "") = "") :
    POSTguard bodyQuery rest = (PostOutcome.badRequest 400 "Query is required", []) := by
  simp [POSTguard, h]

/-- C8 (witness): `C8_theorem` applied to the whitespace-only body
query `"   "` and a continuation that would record a call to every
collaborator. -/
theorem C8_witness :
    jsTrim ((some "   " : Option String).getD "") = ""
    ∧ POSTguard (some "   ") c8Rest = (PostOutcome.badRequest 400 "Query is required", []) :=
  ⟨by decide, C8_theorem (some "   ") c8Rest (by decide)⟩

/-- C10: gendered-term precedence in the intent classifier is
deterministic and male-first by substring matching: whenever the
lower-cased question contains ` male`, `males`, ` men` or ` man` as a
substring, `filters.gender` is set to `M`, regardless of any female terms
also present (the female branch is only reached otherwise). -/
theorem C10_theorem (q : String)
    (h : (jsIncludes (jsLower q) " male" || jsIncludes (jsLower q) "males"
        || jsIncludes (jsLower q) " men" || jsIncludes (jsLower q) " man") = true) :
    (analyzeQueryIntent q).filters.gender = some "M" := by
  unfold analyzeQueryIntent
  simp only [h, if_true]

/-- C10 (witness): the question `How many females are in the database?`
contains the substring `males` (inside `females`), so `C10_theorem`
assigns it gender `M`, not `F`, although it also contains `female`. -/
theorem C10_witness :
    (jsIncludes (jsLower c10Question) " male" || jsIncludes (jsLower c10Question) "males"
      || jsIncludes (jsLower c10Question) " men" || jsIncludes (jsLower c10Question) " man") = true
    ∧ jsIncludes (jsLower c10Question) "females" = true
    ∧ jsIncludes (jsLower c10Question) "female" = true
    ∧ (analyzeQueryIntent c10Question).filters.gender = some "M" :=
  ⟨by decide, by decide, by decide, C10_theorem _ (by decide)⟩

/-- C3 (amended): the refinement loop of `executeQueryWithLLM` always
terminates after at most `maxAttempts = 8` iterations regardless of the
behaviour of the generation service and the data store (the attempt
counter is incremented and checked before each iteration; the model makes
this structural in the fuel), and the attempt history returned to the
caller has length at most 14 — not 8 as claimed: from the third attempt
on, an iteration that finds no rows on a keyword-plus-year intent pushes
a second, fallback query text (see `C3_counterexample`). -/
theorem C3_theorem (q : String) (llm : Nat → String → Option String)
    (db : Nat → Option (List JsVal)) (intent : QueryIntent) :
    (executeQueryWithLLM q llm db intent).attempts ≤ maxAttempts
    ∧ (executeQueryWithLLM q llm db intent).attemptHistory.length ≤ 14 := by
  unfold executeQueryWithLLM
  split
  · split
    · split
      · constructor
        · show 1 ≤ maxAttempts
          decide
        · show ([generateYearPatientFallbackQuery (intent.filters.year.getD "")]).length ≤ 14
          simp only [List.length_singleton]
          omega
      · constructor
        · have := loopGo_attempts_le ⟨q, intent, llm, db⟩ maxAttempts ⟨0, [], [], 0, 1, []⟩
          simpa using this
        · have := loopGo8_hist ⟨q, intent, llm, db⟩ ⟨0, [], [], 0, 1, []⟩ rfl
          simpa using this
    · constructor
      · have := loopGo_attempts_le ⟨q, intent, llm, db⟩ maxAttempts ⟨0, [], [], 0, 1, []⟩
        simpa using this
      · have := loopGo8_hist ⟨q, intent, llm, db⟩ ⟨0, [], [], 0, 1, []⟩ rfl
        simpa using this
  · constructor
    · have := loopGo_attempts_le ⟨q, intent, llm, db⟩ maxAttempts ⟨0, [], [], 0, 0, []⟩
      simpa using this
    · have := loopGo8_hist ⟨q, intent, llm, db⟩ ⟨0, [], [], 0, 0, []⟩ rfl
      simpa using this

/-- C3 (counterexample): a run in which the generation service always
answers and the store always returns zero rows performs 8 iterations but
returns an attempt history of length 14, exceeding the claimed bound 8:
attempts 3 to 8 each record both the generated query and the general
fallback query. -/
theorem C3_counterexample :
    (executeQueryWithLLM c3Question c3Llm c3Db (analyzeQueryIntent c3Question)).attemptHistory.length = 14
    ∧ maxAttempts
      < (executeQueryWithLLM c3Question c3Llm c3Db (analyzeQueryIntent c3Question)).attemptHistory.length := by
  have h : (executeQueryWithLLM c3Question c3Llm c3Db
      (analyzeQueryIntent c3Question)).attemptHistory.length = 14 := by decide
  exact ⟨h, by rw [h]; decide⟩

/-- C4 (counterexample): the query-cleaning function is not idempotent.
For the input `aqlaql RETURN 1`, one pass strips the first `aql` language
tag and yields `aql RETURN 1`; a second pass strips the newly exposed tag
and yields `RETURN 1`, so `clean (clean x) ≠ clean x`.  Each tag in the
list `aql`, `sql`, `AQL:`, `SQL:` is checked only once, so stripping may
expose a tag that an earlier step already checked. -/
theorem C4_counterexample :
    cleanAqlQuery (cleanAqlQuery c4BadInput) ≠ cleanAqlQuery c4BadInput := by
  decide

/-- C4 (amended): cleaning is total (it is a function), and it is
idempotent exactly on inputs whose cleaned form contains no code fence
and does not again start (case-insensitively) with a language tag: under
those conditions a second pass only re-trims an already-trimmed string.
The unconditional idempotence stated by the claim fails on the input
`aqlaql RETURN 1`. -/
theorem C4_theorem (x : String)
    (h1 : containsSub fenceTicks (cleanAqlQuery x).data = false)
    (h2 : "aql".data.isPrefixOf ((cleanAqlQuery x).data.map Char.toLower) = false)
    (h3 : "sql".data.isPrefixOf ((cleanAqlQuery x).data.map Char.toLower) = false) :
    cleanAqlQuery (cleanAqlQuery x) = cleanAqlQuery x :=
  cleanAqlQuery_stable _ h1 h2 h3 (trimChars_data_cleanAqlQuery x)

/-- C4 (witness): `C4_theorem` applied to a query wrapped in an
`aql`-tagged fence; one cleaning pass unwraps it and a second pass is a
no-op. -/
theorem C4_witness :
    containsSub fenceTicks (cleanAqlQuery c4Wrapped).data = false
    ∧ cleanAqlQuery c4Wrapped = "FOR d IN MedGraph_node RETURN d"
    ∧ cleanAqlQuery (cleanAqlQuery c4Wrapped) = cleanAqlQuery c4Wrapped :=
  ⟨by decide, by decide, C4_theorem c4Wrapped (by decide) (by decide) (by decide)⟩

/-- C5 (code evidence): when the first execution of
`executeQueryWithLLM` times out or errors, the feedback passed to the
second prompt-builder call is the generic no-results message, not the
staged-pattern directive: the handler computes `timeoutMessage` (which
does ask for the staged pattern of example #11) into a local variable
that is never read, and `promptErrorInfo` depends only on the attempt
number and the persisted result. -/
theorem C5_theorem :
    (executeQueryWithLLM c5Question c5Llm c5Db
        (analyzeQueryIntent c5Question)).errorInfoTrace.getD 1 "" = noResultsMsg
    ∧ noResultsMsg ≠ timeoutMessage
    ∧ jsIncludes noResultsMsg "staged processing" = false
    ∧ jsIncludes timeoutMessage "staged processing" = true := by
  refine ⟨by decide, by decide, by decide, by decide⟩

/-- C9: for every binary male/female distribution with non-negative
counts that are not both zero, the two reported percentages are
`male/(male+female)*100` and `female/(male+female)*100`, each rounded to
one decimal place, and their sum is 100 within ±0.1.  `toFixed(1)` is
modelled as exact rational rounding, half away from zero for these
non-negative values. -/
theorem C9_theorem (male female : ℚ) (_h0m : 0 ≤ male) (_h0f : 0 ≤ female)
    (h : 0 < male + female) :
    malePercent male female = toFixed1 (male / (male + female) * 100)
    ∧ femalePercent male female = toFixed1 (female / (male + female) * 100)
    ∧ |malePercent male female + femalePercent male female - 100| ≤ 1 / 10 := by
  refine ⟨rfl, rfl, ?_⟩
  have hT : male + female ≠ 0 := ne_of_gt h
  set a : ℚ := male / (male + female) * 100 with ha
  set b : ℚ := female / (male + female) * 100 with hb
  have hab : a + b = 100 := by
    rw [ha, hb]
    field_simp
    ring
  have h1 : ((⌊a * 10 + 1 / 2⌋ : ℤ) : ℚ) ≤ a * 10 + 1 / 2 := Int.floor_le _
  have h2 : a * 10 + 1 / 2 - 1 < ((⌊a * 10 + 1 / 2⌋ : ℤ) : ℚ) := Int.sub_one_lt_floor _
  have h3 : ((⌊b * 10 + 1 / 2⌋ : ℤ) : ℚ) ≤ b * 10 + 1 / 2 := Int.floor_le _
  have h4 : b * 10 + 1 / 2 - 1 < ((⌊b * 10 + 1 / 2⌋ : ℤ) : ℚ) := Int.sub_one_lt_floor _
  have hlow : (999 : ℤ) < ⌊a * 10 + 1 / 2⌋ + ⌊b * 10 + 1 / 2⌋ := by
    have : (999 : ℚ) < ((⌊a * 10 + 1 / 2⌋ + ⌊b * 10 + 1 / 2⌋ : ℤ) : ℚ) := by
      push_cast
      nlinarith [hab]
    exact_mod_cast this
  have hlow2 : (1000 : ℤ) ≤ ⌊a * 10 + 1 / 2⌋ + ⌊b * 10 + 1 / 2⌋ := by omega
  have hlowQ : (1000 : ℚ) ≤ ((⌊a * 10 + 1 / 2⌋ : ℤ) : ℚ) + ((⌊b * 10 + 1 / 2⌋ : ℤ) : ℚ) := by
    exact_mod_cast hlow2
  have hhighQ : ((⌊a * 10 + 1 / 2⌋ : ℤ) : ℚ) + ((⌊b * 10 + 1 / 2⌋ : ℤ) : ℚ) ≤ 1001 := by
    nlinarith [hab]
  unfold malePercent femalePercent toFixed1
  rw [← ha, ← hb]
  rw [abs_le]
  constructor
  · linarith
  · linarith

/-- C9 (witness): `C9_theorem` at male = 3, female = 1. -/
theorem C9_witness :
    (0 : ℚ) ≤ 3 ∧ (0 : ℚ) ≤ 1 ∧ (0 : ℚ) < 3 + 1
    ∧ |malePercent 3 1 + femalePercent 3 1 - 100| ≤ 1 / 10 :=
  ⟨by norm_num, by norm_num, by norm_num,
    (C9_theorem 3 1 (by norm_num) (by norm_num) (by norm_num)).2.2⟩

/-- C6 (amended): for an intent with condition keywords and a year
filter, the fourth prompt built after empty-result feedback contains the
broadened-query escalation directive (drop the condition filter, keep the
year filter) — provided the intent is not a count-type `how many`
question, for which the count-correction block takes precedence. -/
theorem C6_theorem (q prev err : String) (intent : QueryIntent)
    (hkw : 0 < intent.keywords.length)
    (hyr : optTruthyS intent.filters.year = true)
    (herr : jsIncludes err "No results" = true)
    (hnc : (intent.queryType == "count" && jsIncludes (jsLower q) "how many") = false) :
    containsSub broadenDirective.data (generateLLMPrompt q intent 4 prev err).data = true := by
  have hkwd : decide (0 < intent.keywords.length) = true := decide_eq_true hkw
  have hstep : generateLLMPrompt q intent 4 prev err
      = (retryB1 ++ prev ++ retryB2 ++ q ++ retryB3 ++ err ++ retryB4 ++ toString 4
          ++ retryB5 ++ getGraphSchema ++ retryB6)
        ++ escKY1 ++ joinComma intent.keywords ++ escKY2 ++ intent.filters.year.getD ""
        ++ escKY3 ++ intent.filters.year.getD "" ++ escKY4 ++ intent.filters.year.getD ""
        ++ escKY5 ++ joinComma intent.keywords ++ escKY6 ++ intent.keywords.headD ""
        ++ escKY7 ++ rulesRetry := by
    simp [generateLLMPrompt, hnc, herr, hyr, hkwd]
  rw [hstep, containsSub_iff]
  simp only [String.data_append, List.append_assoc]
  iterate 17 apply infix_append_of_right
  apply infix_append_of_left
  exact containsSub_iff.mp (by decide)

/-- C6 (witness): `C6_theorem` applied to the data question
`Patients with diabetes born in 1964` with the no-results feedback. -/
theorem C6_witness :
    0 < (analyzeQueryIntent c6DataQuestion).keywords.length
    ∧ optTruthyS (analyzeQueryIntent c6DataQuestion).filters.year = true
    ∧ jsIncludes noResultsMsg "No results" = true
    ∧ ((analyzeQueryIntent c6DataQuestion).queryType == "count"
        && jsIncludes (jsLower c6DataQuestion) "how many") = false
    ∧ containsSub broadenDirective.data
        (generateLLMPrompt c6DataQuestion (analyzeQueryIntent c6DataQuestion) 4 c6PrevQuery
          noResultsMsg).data = true :=
  ⟨by decide, by decide, by decide, by decide,
    C6_theorem c6DataQuestion c6PrevQuery noResultsMsg (analyzeQueryIntent c6DataQuestion)
      (by decide) (by decide) (by decide) (by decide)⟩

set_option maxRecDepth 100000 in
/-- C6 (counterexample): for the count-type question
`How many patients with diabetes born in 1964?` — an intent with
non-empty condition keywords and a year filter — the fourth prompt built
after three empty results does not contain the broadened-query directive:
the count-correction branch takes precedence over the escalation
branch. -/
theorem C6_counterexample :
    (analyzeQueryIntent c6Question).queryType = "count"
    ∧ 0 < (analyzeQueryIntent c6Question).keywords.length
    ∧ optTruthyS (analyzeQueryIntent c6Question).filters.year = true
    ∧ jsIncludes noResultsMsg "No results" = true
    ∧ containsSub broadenDirective.data
        (generateLLMPrompt c6Question (analyzeQueryIntent c6Question) 4 c6PrevQuery
          noResultsMsg).data = false := by
  refine ⟨by decide, by decide, by decide, by decide, ?_⟩
  have hstep : generateLLMPrompt c6Question (analyzeQueryIntent c6Question) 4 c6PrevQuery
      noResultsMsg
      = (retryB1 ++ c6PrevQuery ++ retryB2 ++ c6Question ++ retryB3 ++ noResultsMsg
          ++ retryB4 ++ toString 4 ++ retryB5 ++ getGraphSchema ++ retryB6)
        ++ countCritical ++ rulesRetry := by
    rfl
  rw [hstep, containsSub_eq_false_iff]
  simp only [getGraphSchema, String.data_append, List.append_assoc]
  iterate 18 apply not_infix_chunk (by decide) (containsSub_eq_false_iff.mp (by decide))
  exact containsSub_eq_false_iff.mp (by decide)
